import Mathlib

/-!
# Verification of the Autonomous-Browser-Agent orchestration core

Shallow embedding of `src/browser_agent/orchestration.py` (the workflow engine
wired into the LangGraph app by `create_agent`/`run_agent`), together with the
rotation helpers of `src/browser_agent/llm/router.py` and the browser-info
helper shared with `src/browser_agent/agents/planner.py`.

Python dicts/lists are modelled by Lean structures/lists, Python exceptions by
`Except`/explicit outcome constructors, and the exogenous LLM/vector-store
calls by explicit outcome parameters (each call either returns a value or
raises with a message string), so every orchestration decision taken on those
outcomes is the code's own logic.
-/

namespace BrowserAgent

/-! ## String primitives (Python `in`, `str.lower`, `str.replace`) -/

/-- `isPrefixList needle hay` — `needle` is a prefix of `hay` (char-exact). -/
def isPrefixList : List Char → List Char → Bool
  | [], _ => true
  | _ :: _, [] => false
  | a :: as, b :: bs => a == b && isPrefixList as bs

/-- `containsList hay needle` — Python's substring test `needle in hay`. -/
def containsList : List Char → List Char → Bool
  | [], needle => needle.isEmpty
  | c :: t, needle => isPrefixList needle (c :: t) || containsList t needle

/-- Python `needle in hay` on strings. -/
def strContains (hay needle : String) : Bool :=
  containsList hay.data needle.data

/-- Python `str.lower()` (ASCII case fold, which is all the orchestration compares). -/
def strToLower (s : String) : String :=
  ⟨s.data.map Char.toLower⟩

/-- Python `netloc.replace("www.", "")`: drop every non-overlapping occurrence
of `"www."`, scanning left to right and resuming after each removed match. -/
def stripWWW : List Char → List Char
  | 'w' :: 'w' :: 'w' :: '.' :: rest => stripWWW rest
  | c :: rest => c :: stripWWW rest
  | [] => []

theorem isPrefixList_self_append (l r : List Char) : isPrefixList l (l ++ r) = true := by
  induction l with
  | nil => rfl
  | cons a as ih => simp [isPrefixList, ih]

theorem containsList_append_middle (a n r : List Char) :
    containsList (a ++ (n ++ r)) n = true := by
  induction a with
  | nil =>
    cases hn : n ++ r with
    | nil =>
      have : n = [] := by
        cases n with
        | nil => rfl
        | cons x xs => simp at hn
      simp [this, containsList, List.isEmpty]
    | cons x xs =>
      simp only [List.nil_append, hn, containsList]
      rw [← hn, isPrefixList_self_append]
      simp
  | cons b bs ih =>
    simp only [List.cons_append, containsList]
    rw [show bs.append (n ++ r) = bs ++ (n ++ r) from rfl, ih]
    simp

end BrowserAgent

namespace BrowserAgent

/-! ## Data model: plan steps (`core/schemas.py::Step`, used as dicts) -/

/-- One planned step, as produced by the Planner's structured output and
consumed by the redirector (`step_number`, `agent`, `query`, optional
`content` and `rag_message`). -/
structure Step where
  step_number : Int
  agent : String
  query : String
  content : Option String
  rag_message : Option String
deriving Repr, DecidableEq

/-- Routing targets of a LangGraph `Command(goto=...)` in the workflow. -/
inductive Goto where
  | planner
  | executor
  | output_agent
  | rag_agent
  | redirector
  | END
deriving Repr, DecidableEq

/-- The partial state update carried by a redirector `Command`; `none` means
the field is absent from the update dict (left unchanged by this command). -/
structure RedirectUpdate where
  step_index : Option Nat
  plan : Option (List Step)
  messages : List String
  rag_messages : List String
  execution_messages : List String
  output_agent_messages : List String
  output_content : Option (List String)
deriving Repr, DecidableEq

/-- An update dict with no entries. -/
def RedirectUpdate.empty : RedirectUpdate :=
  ⟨none, none, [], [], [], [], none⟩

/-- A redirector `Command(goto=..., update=...)`. -/
structure RedirectCommand where
  goto : Goto
  update : RedirectUpdate
deriving Repr, DecidableEq

/-- `orchestration.py::redirector` — pure dispatch on `plan[step_index]`.
Inputs are the state fields the function reads: `plan`, `step_index`,
`output_content`. -/
def redirector (plan : List Step) (index : Nat) (output_content : List String) :
    RedirectCommand :=
  if _h : index ≥ plan.length then
    ⟨.END, RedirectUpdate.empty⟩
  else
    let step := plan.get ⟨index, by omega⟩
    if step.agent = "PLANNER" then
      ⟨.planner, { RedirectUpdate.empty with
        step_index := some 0,
        messages := ["Phase 1 complete. Data extracted. Please plan Phase 2."] }⟩
    else if step.agent = "RAG" then
      let message_content :=
        match step.rag_message with
        | some s => if s = "" then step.query else s
        | none => step.query
      ⟨.rag_agent, { RedirectUpdate.empty with
        step_index := some (index + 1),
        rag_messages := [message_content] }⟩
    else if step.agent = "EXECUTION" then
      ⟨.executor, { RedirectUpdate.empty with
        step_index := some (index + 1),
        execution_messages := [step.query] }⟩
    else if step.agent = "OUTPUT_FORMATTING" then
      let content_to_append := step.content.getD ""
      let new_content_list :=
        if content_to_append ≠ "" then output_content ++ [content_to_append]
        else output_content
      ⟨.output_agent, { RedirectUpdate.empty with
        step_index := some (index + 1),
        output_agent_messages := [step.query],
        output_content := some new_content_list }⟩
    else if step.agent = "end" then
      ⟨.END, { RedirectUpdate.empty with step_index := some 0, plan := some [] }⟩
    else
      ⟨.planner, { RedirectUpdate.empty with
        messages := ["Error at step " ++ toString index ++ ": Unknown agent " ++ step.agent] }⟩

/-- The five step-agent tags the redirector knows how to dispatch. -/
def knownAgentTags : List String :=
  ["RAG", "EXECUTION", "OUTPUT_FORMATTING", "PLANNER", "end"]

/-- The diagnostic message the redirector emits for an unknown agent tag. -/
def unknownAgentMessage (index : Nat) (tag : String) : String :=
  "Error at step " ++ toString index ++ ": Unknown agent " ++ tag

theorem redirector_step_index_eq (plan : List Step) (index : Nat) (oc : List String) :
    (redirector plan index oc).update.step_index =
      match plan[index]? with
      | none => none
      | some s =>
        if s.agent = "PLANNER" then some 0
        else if s.agent = "RAG" then some (index + 1)
        else if s.agent = "EXECUTION" then some (index + 1)
        else if s.agent = "OUTPUT_FORMATTING" then some (index + 1)
        else if s.agent = "end" then some 0
        else none := by
  by_cases h : index ≥ plan.length
  · have : plan[index]? = none := by
      rw [List.getElem?_eq_none_iff]
      omega
    simp [redirector, h, this, RedirectUpdate.empty]
  · have hlt : index < plan.length := by omega
    have : plan[index]? = some (plan.get ⟨index, hlt⟩) := by
      simp [List.getElem?_eq_getElem hlt, List.get_eq_getElem]
    rw [this]
    simp only [redirector, h, dite_false, RedirectUpdate.empty]
    split
    · simp_all
    · split
      · simp_all
      · split
        · simp_all
        · split
          · simp_all
          · split <;> simp_all

/-- C7 (corrected): as stated, the claim is false — on the out-of-range
terminal call the redirector's command carries no `step_index` change at all,
so neither an advance nor a reset happens. Concretely, with the empty plan and
`step_index = 1`, the command neither advances to 2 nor resets to 0. -/
theorem c7_counterexample :
    ¬ ((redirector [] 1 []).update.step_index = some 2 ∨
      (redirector [] 1 []).update.step_index = some 0) := by
  decide

/-- C7 (amended): never do both changes happen in one call; on every call that
dispatches an in-range step with a known agent tag, exactly one of
{advance by 1, reset to 0} happens; on the out-of-range terminal call and on
the unknown-tag diagnostic call, `step_index` is left unchanged (no
`step_index` entry in the update). -/
theorem c7_redirector_step_index_discipline (plan : List Step) (index : Nat)
    (oc : List String) :
    (¬ ((redirector plan index oc).update.step_index = some (index + 1) ∧
        (redirector plan index oc).update.step_index = some 0)) ∧
    (∀ s, plan[index]? = some s → s.agent ∈ knownAgentTags →
      ((redirector plan index oc).update.step_index = some (index + 1) ∨
        (redirector plan index oc).update.step_index = some 0)) ∧
    (plan[index]? = none → (redirector plan index oc).update.step_index = none) ∧
    (∀ s, plan[index]? = some s → s.agent ∉ knownAgentTags →
      (redirector plan index oc).update.step_index = none) := by
  refine ⟨?_, ?_, ?_, ?_⟩
  · rintro ⟨h1, h2⟩
    rw [h1] at h2
    simp at h2
  · intro s hs hmem
    rw [redirector_step_index_eq, hs]
    simp only [knownAgentTags, List.mem_cons, List.not_mem_nil, or_false] at hmem
    rcases hmem with h | h | h | h | h <;> simp [h]
  · intro hnone
    rw [redirector_step_index_eq, hnone]
  · intro s hs hmem
    rw [redirector_step_index_eq, hs]
    simp only [knownAgentTags, List.mem_cons, List.not_mem_nil, or_false] at hmem
    push_neg at hmem
    obtain ⟨h1, h2, h3, h4, h5⟩ := hmem
    simp [h1, h2, h3, h4, h5]

theorem c7_witness :
    (([⟨1, "EXECUTION", "search", none, none⟩] : List Step)[0]? =
      some ⟨1, "EXECUTION", "search", none, none⟩) ∧
    ((redirector [⟨1, "EXECUTION", "search", none, none⟩] 0 []).update.step_index = some 1 ∨
      (redirector [⟨1, "EXECUTION", "search", none, none⟩] 0 []).update.step_index = some 0) :=
  ⟨by decide,
    (c7_redirector_step_index_discipline [⟨1, "EXECUTION", "search", none, none⟩] 0 []).2.1
      ⟨1, "EXECUTION", "search", none, none⟩ (by decide) (by decide)⟩

/-- C8: for an in-range step whose agent tag is not one of the five known
tags, the redirector routes to the Planner, the update carries no `plan` and
no `step_index` entry (both unchanged), and the single diagnostic message
contains the step index and the invalid tag. -/
theorem c8_unknown_tag_diagnostic (plan : List Step) (index : Nat) (oc : List String)
    (s : Step) (hs : plan[index]? = some s) (hunknown : s.agent ∉ knownAgentTags) :
    (redirector plan index oc).goto = Goto.planner ∧
    (redirector plan index oc).update.step_index = none ∧
    (redirector plan index oc).update.plan = none ∧
    (redirector plan index oc).update.messages = [unknownAgentMessage index s.agent] ∧
    strContains (unknownAgentMessage index s.agent) (toString index) = true ∧
    strContains (unknownAgentMessage index s.agent) s.agent = true := by
  have hlt : index < plan.length := by
    rcases List.getElem?_eq_some.1 hs with ⟨h, _⟩
    exact h
  have hget : plan[index] = s := by
    have h2 := List.getElem?_eq_getElem hlt
    rw [h2] at hs
    exact Option.some.inj hs
  simp only [knownAgentTags, List.mem_cons, List.not_mem_nil, or_false] at hunknown
  push_neg at hunknown
  obtain ⟨h1, h2, h3, h4, h5⟩ := hunknown
  have hnotge : ¬ index ≥ plan.length := by omega
  have hcmd : redirector plan index oc =
      ⟨Goto.planner, { RedirectUpdate.empty with
        messages := [unknownAgentMessage index s.agent] }⟩ := by
    simp [redirector, hnotge, hget, h1, h2, h3, h4, h5, unknownAgentMessage]
  refine ⟨?_, ?_, ?_, ?_, ?_, ?_⟩
  · rw [hcmd]
  · rw [hcmd]
    rfl
  · rw [hcmd]
    rfl
  · rw [hcmd]
  · have hdata : (unknownAgentMessage index s.agent).data =
        "Error at step ".data ++ ((toString index).data ++
          ((": Unknown agent ").data ++ s.agent.data)) := by
      simp [unknownAgentMessage, String.data_append]
    simp only [strContains]
    rw [hdata]
    exact containsList_append_middle "Error at step ".data (toString index).data
      ((": Unknown agent ").data ++ s.agent.data)
  · have hdata : (unknownAgentMessage index s.agent).data =
        ("Error at step ".data ++ (toString index).data ++ (": Unknown agent ").data) ++
          (s.agent.data ++ ([] : List Char)) := by
      simp [unknownAgentMessage, String.data_append]
    simp only [strContains]
    rw [hdata]
    exact containsList_append_middle _ s.agent.data _

/-! ## Planner (`orchestration.py::central_agent1`) -/

/-- The state fields `central_agent1` reads. -/
structure PlannerState where
  user_input : String
  site_names : List String
  urls : List String
  plan : List Step
  step_index : Nat
  last_error : Option String
  output_content : List String
  current_model_index : Nat
deriving Repr, DecidableEq

/-- Python truthiness of an optional string (`None` and `""` are falsy). -/
def isTruthyStr : Option String → Bool
  | none => false
  | some s => s ≠ ""

/-- The three planning modes, selected in the code's precedence order. -/
inductive PlannerMode where
  | phase2
  | errorRecovery
  | freshStart
deriving Repr, DecidableEq

/-- Mode selection: `if state.get("output_content") and current_index == 0`
(data-driven phase 2), `elif last_error` (error recovery), else fresh start. -/
def plannerMode (st : PlannerState) : PlannerMode :=
  if st.output_content ≠ [] ∧ st.step_index = 0 then .phase2
  else if isTruthyStr st.last_error then .errorRecovery
  else .freshStart

/-- The retained steps: `completed_steps` is set to `current_plan[:current_index]`
only in error-recovery mode (guarded by `if current_plan:`), and `[]` in the
other two modes. -/
def completedSteps (st : PlannerState) : List Step :=
  match plannerMode st with
  | .phase2 => []
  | .errorRecovery => if st.plan ≠ [] then st.plan.take st.step_index else []
  | .freshStart => []

/-- The renumbering loop `for i, step in enumerate(final_plan):
step['step_number'] = i + 1`, with `n` the number of already-numbered steps. -/
def renumberFrom (n : Nat) : List Step → List Step
  | [] => []
  | s :: rest => { s with step_number := (n : Int) + 1 } :: renumberFrom (n + 1) rest

/-- Renumber a whole plan: `step_number := position + 1`. -/
def renumber (l : List Step) : List Step :=
  renumberFrom 0 l

/-- The planner's retryable-failure test on `str(e).lower()`: rate limit,
quota, payload-too-large and the deliberate empty-output retry are rotated
past; anything else aborts the rotation loop. -/
def isRetryableErr (e : String) : Bool :=
  let s := strToLower e
  strContains s "429" || strContains s "413" || strContains s "rate limit" ||
    strContains s "quota" || strContains s "resource_exhausted" ||
    strContains s "request too large" || strContains s "empty output"

/-- The parsed structured output of a successful model call
(`{target_urls, site_names, steps}` after `json.loads`). -/
structure SupervisorParsed where
  target_urls : List String
  site_names : List String
  steps : List Step
deriving Repr, DecidableEq

/-- Outcome of one rotation candidate: the whole `try` body either reaches the
parsed result, or raises an exception whose `str(e)` is recorded. -/
inductive PlanAttempt where
  | success (parsed : SupervisorParsed)
  | failure (errorMsg : String)
deriving Repr, DecidableEq

/-- The dict `central_agent1` returns. `current_model_index = none` models the
fallback return, whose dict has no `current_model_index` key (the state keeps
its previous rotation cursor). -/
structure PlannerResult where
  plan : List Step
  step_index : Nat
  last_error : Option String
  urls : List String
  site_names : List String
  current_model_index : Option Nat
  message : String
deriving Repr, DecidableEq

/-- The `# All keys exhausted` fallback return: unmodified prior plan,
`step_index` reset to the retained-prefix length, `last_error` cleared. -/
def plannerFallback (currentPlan completed : List Step) : PlannerResult :=
  ⟨currentPlan, completed.length, none, [], [],
    none, "[Planner]: Planning failed. Using existing plan."⟩

/-- The success return for rotation offset `idx`:
`final_plan = completed_steps + new_steps` renumbered, `step_index` set to the
retained-prefix length, `last_error` cleared, and the rotation cursor advanced
to `(start_index + idx) % len(llm_rotation)`. -/
def plannerSuccess (completed : List Step) (startIndex rotLen idx : Nat)
    (parsed : SupervisorParsed) : PlannerResult :=
  ⟨renumber (completed ++ parsed.steps), completed.length, none,
    parsed.target_urls, parsed.site_names, some ((startIndex + idx) % rotLen),
    "[Planner]: Plan updated. Phase steps: " ++ toString parsed.steps.length ++ "."⟩

/-- The rotation loop of `central_agent1`: first success returns, retryable
failures `continue`, a non-retryable failure `break`s to the fallback, and an
exhausted list falls through to the fallback. -/
def planLoop (completed currentPlan : List Step) (startIndex rotLen idx : Nat) :
    List PlanAttempt → PlannerResult
  | [] => plannerFallback currentPlan completed
  | .success parsed :: _ => plannerSuccess completed startIndex rotLen idx parsed
  | .failure e :: rest =>
    if isRetryableErr e then planLoop completed currentPlan startIndex rotLen (idx + 1) rest
    else plannerFallback currentPlan completed

/-- `orchestration.py::central_agent1` as a function of the state it reads and
the per-candidate outcomes of the rotation (`attempts` has one entry per
element of `llm_rotation`). The prompt strings, RAG side store and logging do
not influence the returned state delta and are omitted. -/
def central_agent1 (st : PlannerState) (attempts : List PlanAttempt) : PlannerResult :=
  planLoop (completedSteps st) st.plan st.current_model_index attempts.length 0 attempts

/-- True when the rotation loop reaches the fallback: every attempt before the
end of the list (or before a non-retryable failure) fails, and no candidate
succeeds. -/
def rotationExhausted : List PlanAttempt → Bool
  | [] => true
  | .success _ :: _ => false
  | .failure e :: rest => if isRetryableErr e then rotationExhausted rest else true

/-- A plan is densely numbered: `step_number == position + 1` at every
position (the spec's renumbering invariant, re-established by the planner's
renumber loop on every success and holding for the initial empty plan). -/
def denseNumbered (l : List Step) : Prop :=
  ∀ i (h : i < l.length), (l.get ⟨i, h⟩).step_number = (i : Int) + 1

theorem renumberFrom_get? (n : Nat) (l : List Step) (i : Nat) :
    (renumberFrom n l).get? i =
      (l.get? i).map (fun s => { s with step_number := ((n + i : Nat) : Int) + 1 }) := by
  induction l generalizing n i with
  | nil => simp [renumberFrom]
  | cons s rest ih =>
    cases i with
    | zero => simp [renumberFrom]
    | succ j =>
      simp only [renumberFrom, List.get?_cons_succ, ih (n + 1) j]
      rw [show n + 1 + j = n + (j + 1) from by omega]

theorem renumber_length (l : List Step) : (renumber l).length = l.length := by
  suffices h : ∀ n (l : List Step), (renumberFrom n l).length = l.length by
    exact h 0 l
  intro n l
  induction l generalizing n with
  | nil => rfl
  | cons s rest ih => simp [renumberFrom, ih]

theorem renumber_get? (l : List Step) (i : Nat) :
    (renumber l).get? i = (l.get? i).map (fun s => { s with step_number := (i : Int) + 1 }) := by
  have h := renumberFrom_get? 0 l i
  rw [renumber]
  rw [h]
  simp

theorem renumber_dense (l : List Step) : denseNumbered (renumber l) := by
  intro i h
  have hlen : i < l.length := by rwa [renumber_length] at h
  have h1 := renumber_get? l i
  rw [List.get?_eq_getElem?, List.getElem?_eq_getElem h] at h1
  rw [List.get?_eq_getElem?, List.getElem?_eq_getElem hlen] at h1
  simp only [Option.map_some'] at h1
  have h3 := Option.some.inj h1
  simp only [List.get_eq_getElem]
  rw [h3]

/-- C3: every plan returned by `central_agent1` — in all three modes, and on
the rotation-exhaustion fallback path (which returns the prior plan
unmodified) — is densely numbered, provided the prior plan in the state is
(the invariant holds for the initial empty plan and is re-established by the
renumber loop on every successful return). -/
theorem c3_planner_renumbering (st : PlannerState) (attempts : List PlanAttempt)
    (hdense : denseNumbered st.plan) :
    denseNumbered (central_agent1 st attempts).plan := by
  rw [central_agent1]
  generalize attempts.length = rotLen
  generalize 0 = idx
  induction attempts generalizing idx with
  | nil => exact hdense
  | cons a rest ih =>
    cases a with
    | success parsed => exact renumber_dense _
    | failure e =>
      simp only [planLoop]
      split
      · exact ih _
      · exact hdense

theorem c3_witness :
    denseNumbered
      (central_agent1
        ⟨"book a flight", [], [], [⟨1, "EXECUTION", "open expedia", none, none⟩], 1,
          some "timeout", [], 0⟩
        [.failure "429 rate limit", .success ⟨["https://e.com"], ["e.com"],
          [⟨0, "EXECUTION", "retry open", none, none⟩, ⟨0, "end", "done", none, none⟩]⟩]).plan := by
  have hdense : denseNumbered
      ([⟨1, "EXECUTION", "open expedia", none, none⟩] : List Step) := by
    intro i h
    simp only [List.length_cons, List.length_nil] at h
    have hi : i = 0 := by omega
    subst hi
    rfl
  exact c3_planner_renumbering _ _ hdense

theorem step_eta_step_number (s : Step) (x : Int) (h : x = s.step_number) :
    ({ s with step_number := x } : Step) = s := by
  cases s
  simp_all

/-- Every `planLoop` result carries either the unmodified prior plan (fallback)
or a renumbered `completed ++ new_steps` plan (success). -/
theorem planLoop_plan_cases (completed currentPlan : List Step)
    (startIndex rotLen idx : Nat) (attempts : List PlanAttempt) :
    (planLoop completed currentPlan startIndex rotLen idx attempts).plan = currentPlan ∨
      ∃ parsed : SupervisorParsed,
        (planLoop completed currentPlan startIndex rotLen idx attempts).plan =
          renumber (completed ++ parsed.steps) := by
  induction attempts generalizing idx with
  | nil => exact Or.inl rfl
  | cons a rest ih =>
    cases a with
    | success parsed => exact Or.inr ⟨parsed, rfl⟩
    | failure e =>
      simp only [planLoop]
      split
      · exact ih _
      · exact Or.inl rfl

/-- In error-recovery mode the retained prefix is `current_plan[:current_index]`. -/
theorem completedSteps_error_recovery (st : PlannerState)
    (hmode : plannerMode st = .errorRecovery) :
    completedSteps st = st.plan.take st.step_index := by
  simp only [completedSteps, hmode]
  split
  · rfl
  · rename_i hnil
    simp only [ne_eq, not_not] at hnil
    rw [hnil, List.take_nil]

/-- C2: whenever the Planner runs in error-recovery mode (`last_error` truthy
and not the phase-2 data-driven case) with `step_index = k`, every step of the
prior plan at a position `i < k` reappears byte-identical at position `i` of
the returned plan — on the success path because the retained prefix
`plan[:k]` is re-numbered to the values it already carries (the plans the
planner produces are densely numbered, which is the stated invariant and is
taken as hypothesis here), and on the exhaustion fallback because the prior
plan is returned unmodified. -/
theorem c2_error_recovery_preserves_prefix (st : PlannerState)
    (attempts : List PlanAttempt)
    (hmode : plannerMode st = .errorRecovery)
    (hdense : ∀ i (_hi : i < st.step_index) (hlen : i < st.plan.length),
      (st.plan.get ⟨i, hlen⟩).step_number = (i : Int) + 1) :
    ∀ i, i < st.step_index → i < st.plan.length →
      (central_agent1 st attempts).plan.get? i = st.plan.get? i := by
  intro i hik hilen
  rw [central_agent1]
  rcases planLoop_plan_cases (completedSteps st) st.plan st.current_model_index
      attempts.length 0 attempts with hfall | ⟨parsed, hsucc⟩
  · rw [hfall]
  · rw [hsucc, completedSteps_error_recovery st hmode]
    rw [renumber_get?]
    have hitake : i < (st.plan.take st.step_index).length := by
      simp only [List.length_take]
      omega
    have happend : (st.plan.take st.step_index ++ parsed.steps).get? i =
        (st.plan.take st.step_index).get? i := by
      rw [List.get?_eq_getElem?, List.get?_eq_getElem?, List.getElem?_append,
        if_pos hitake]
    rw [happend]
    have htake : (st.plan.take st.step_index).get? i = st.plan.get? i := by
      rw [List.get?_eq_getElem?, List.get?_eq_getElem?, List.getElem?_take]
      simp [hik]
    rw [htake]
    rw [List.get?_eq_getElem?, List.getElem?_eq_getElem hilen]
    simp only [Option.map_some']
    have hnum := hdense i hik hilen
    simp only [List.get_eq_getElem] at hnum
    rw [step_eta_step_number _ _ hnum.symm]

theorem c2_witness :
    (central_agent1
        ⟨"task", [], [], [⟨1, "EXECUTION", "open site", none, none⟩,
          ⟨2, "EXECUTION", "click button", none, none⟩], 1, some "element not found", [], 0⟩
        [.success ⟨[], [], [⟨0, "EXECUTION", "scroll then click", none, none⟩]⟩]).plan.get? 0 =
      some ⟨1, "EXECUTION", "open site", none, none⟩ := by
  have h := c2_error_recovery_preserves_prefix
    ⟨"task", [], [], [⟨1, "EXECUTION", "open site", none, none⟩,
      ⟨2, "EXECUTION", "click button", none, none⟩], 1, some "element not found", [], 0⟩
    [.success ⟨[], [], [⟨0, "EXECUTION", "scroll then click", none, none⟩]⟩]
    (by decide)
    (by
      intro i hi hlen
      have hi2 : i < 1 := hi
      have h0 : i = 0 := by omega
      subst h0
      rfl)
    0 (by decide) (by decide)
  exact h.trans (by decide)

/-- The rotation loop yields the fallback result whenever it is exhausted. -/
theorem planLoop_exhausted (completed currentPlan : List Step)
    (startIndex rotLen idx : Nat) (attempts : List PlanAttempt)
    (hex : rotationExhausted attempts = true) :
    planLoop completed currentPlan startIndex rotLen idx attempts =
      plannerFallback currentPlan completed := by
  induction attempts generalizing idx with
  | nil => rfl
  | cons a rest ih =>
    cases a with
    | success parsed => simp [rotationExhausted] at hex
    | failure e =>
      simp only [planLoop]
      simp only [rotationExhausted] at hex
      split
      · rename_i hr
        rw [hr] at hex
        simp only [if_true] at hex
        exact ih _ hex
      · rfl

/-- C6: if the planner's rotation loop ends without a success (every candidate
failed with a retryable rate-limit-class signature, or a non-retryable error
aborted the loop), `central_agent1` returns — it raises nothing, being a total
function whose loop catches every candidate's exception — the unmodified prior
plan with `step_index` equal to the retained-prefix length, `last_error`
cleared to `None`, and no `current_model_index` entry in the returned dict. -/
theorem c6_rotation_exhaustion_fallback (st : PlannerState)
    (attempts : List PlanAttempt)
    (hex : rotationExhausted attempts = true) :
    (central_agent1 st attempts).plan = st.plan ∧
    (central_agent1 st attempts).step_index = (completedSteps st).length ∧
    (central_agent1 st attempts).last_error = none ∧
    (central_agent1 st attempts).current_model_index = none := by
  rw [central_agent1, planLoop_exhausted _ _ _ _ _ _ hex]
  exact ⟨rfl, rfl, rfl, rfl⟩

theorem c6_witness :
    (central_agent1
        ⟨"task", [], [], [⟨1, "EXECUTION", "open site", none, none⟩,
          ⟨2, "end", "done", none, none⟩], 1, some "element not found", [], 0⟩
        [.failure "429 Too Many Requests", .failure "You exceeded your quota"]).plan =
      [⟨1, "EXECUTION", "open site", none, none⟩, ⟨2, "end", "done", none, none⟩] ∧
    (central_agent1
        ⟨"task", [], [], [⟨1, "EXECUTION", "open site", none, none⟩,
          ⟨2, "end", "done", none, none⟩], 1, some "element not found", [], 0⟩
        [.failure "429 Too Many Requests", .failure "You exceeded your quota"]).step_index = 1 ∧
    (central_agent1
        ⟨"task", [], [], [⟨1, "EXECUTION", "open site", none, none⟩,
          ⟨2, "end", "done", none, none⟩], 1, some "element not found", [], 0⟩
        [.failure "429 Too Many Requests", .failure "You exceeded your quota"]).last_error = none := by
  have h := c6_rotation_exhaustion_fallback
    ⟨"task", [], [], [⟨1, "EXECUTION", "open site", none, none⟩,
      ⟨2, "end", "done", none, none⟩], 1, some "element not found", [], 0⟩
    [.failure "429 Too Many Requests", .failure "You exceeded your quota"]
    (by decide)
  exact ⟨h.1, h.2.1.trans (by decide), h.2.2.1⟩

/-! ## Execution worker (`orchestration.py::execution_agent`), post-success routing -/

/-- The failure keywords scanned, in the code's order. -/
def executionKeywords : List String :=
  ["unable", "error", "couldn\x27t", "failed", "execution failed"]

/-- `next((w for w in [...] if w in output_lower), None)`: the first keyword
contained in the lowered answer text, if any. -/
def triggerWord (output_lower : String) : Option String :=
  executionKeywords.find? (fun w => strContains output_lower w)

/-- The `Command` the execution worker emits after a successful model call. -/
inductive ExecCommand where
  | toPlanner (last_error : String) (current_model_index : Nat)
  | toRedirector (current_model_index : Nat) (output_content : Option (List String))
      (message : String)
deriving Repr, DecidableEq

/-- Post-success routing of `execution_agent`: keyword scan with the
`"no error"` negation guard, then extraction-payload collection with the
structured-looking-answer fallback. `intermediate_extracted` holds the
payloads of extraction-class tool calls observed in `intermediate_steps`. -/
def execution_success_route (output_text : String)
    (intermediate_extracted : List String) (successful_index : Nat) : ExecCommand :=
  let output_lower := strToLower output_text
  let trigger := triggerWord output_lower
  if trigger.isSome ∧ strContains output_lower "no error" = false then
    .toPlanner output_text successful_index
  else
    let extracted_data := intermediate_extracted
    let extracted_data :=
      if extracted_data = [] ∧ output_text.length > 20 ∧
          (strContains output_text "\x7b" = true ∨ strContains output_text "[" = true) then
        [output_text]
      else extracted_data
    .toRedirector successful_index
      (if extracted_data ≠ [] then some extracted_data else none) output_text

/-- C5: after a successful model call, if the final answer contains one of the
failure keywords (case-insensitive) and does not contain the negation
`"no error"`, the worker records `last_error = full answer text` together with
the successful rotation index and routes to the Planner; if `"no error"` is
present the trigger is suppressed and the worker routes to the Redirector
normally (carrying the successful rotation index). -/
theorem c5_keyword_failure_detection (output_text : String)
    (intermediate_extracted : List String) (successful_index : Nat)
    (htrig : executionKeywords.any (fun w => strContains (strToLower output_text) w) = true) :
    (strContains (strToLower output_text) "no error" = false →
      execution_success_route output_text intermediate_extracted successful_index =
        .toPlanner output_text successful_index) ∧
    (strContains (strToLower output_text) "no error" = true →
      ∃ oc, execution_success_route output_text intermediate_extracted successful_index =
        .toRedirector successful_index oc output_text) := by
  have hsome : (triggerWord (strToLower output_text)).isSome = true := by
    rw [triggerWord, List.find?_isSome]
    rcases List.any_eq_true.1 htrig with ⟨w, hw, hcw⟩
    exact ⟨w, hw, hcw⟩
  constructor
  · intro hneg
    rw [execution_success_route]
    simp only [hsome, hneg, true_and]
    rfl
  · intro hneg
    rw [execution_success_route]
    simp only [hneg, Bool.true_eq_false, and_false, if_false]
    exact ⟨_, rfl⟩

theorem c5_witness :
    execution_success_route "Login failed: couldn\x27t locate field" [] 2 =
      ExecCommand.toPlanner "Login failed: couldn\x27t locate field" 2 ∧
    ∃ oc, execution_success_route "No error occurred, proceeding" [] 2 =
      ExecCommand.toRedirector 2 oc "No error occurred, proceeding" :=
  ⟨(c5_keyword_failure_detection "Login failed: couldn\x27t locate field" [] 2
      (by decide)).1 (by decide),
    (c5_keyword_failure_detection "No error occurred, proceeding" [] 2
      (by decide)).2 (by decide)⟩

/-! ## Browser inspection (`get_current_browser_info`) -/

/-- The live page handle as `get_current_browser_info` observes it:
`is_closed` mirrors `page.is_closed()`, and `urlRead` is the outcome of the
`page.url` read (`.error` = the property access raised). -/
structure PageModel where
  is_closed : Bool
  urlRead : Except String String
deriving Repr

/-- `browser_manager` as seen through `get_page()`: `none` = no page handle. -/
structure BrowserModel where
  page : Option PageModel
deriving Repr

/-- Scheme characters accepted by Python's `urllib.parse` (`scheme_chars`). -/
def isSchemeChar (c : Char) : Bool :=
  c.isAlphanum || c == '+' || c == '-' || c == '.'

/-- Strip a leading `scheme:` if the text before the first `:` is a valid
scheme (first char a letter, the rest scheme chars), as `urlsplit` does. -/
def splitScheme (l : List Char) : List Char :=
  match l.findIdx? (fun c => c == ':') with
  | some i =>
    let before := l.take i
    match before with
    | [] => l
    | c0 :: rest =>
      if c0.isAlpha && rest.all isSchemeChar then l.drop (i + 1) else l
  | none => l

/-- Modelled from Python stdlib `urllib.parse.urlparse(...).netloc` (an
external collaborator of the repo): after removing a leading scheme, the
netloc is present only when the remainder starts with `//`, and extends to
the next `/`, `?` or `#`. -/
def urlNetloc (url : String) : String :=
  let rest := splitScheme url.data
  match rest with
  | '/' :: '/' :: tail =>
    ⟨tail.takeWhile (fun c => !(c == '/' || c == '?' || c == '#'))⟩
  | _ => ""

/-- `orchestration.py::get_current_browser_info` (identical copy in
`agents/planner.py`): returns the current URL and site name, with string
sentinels on every failure path. -/
def get_current_browser_info (b : BrowserModel) : String × String :=
  match b.page with
  | some page =>
    if !page.is_closed then
      match page.urlRead with
      | .ok current_url =>
        let site_name : String := ⟨stripWWW (urlNetloc current_url).data⟩
        let site_name := if site_name = "" then "local_or_unknown" else site_name
        (current_url, site_name)
      | .error _ => ("unknown_url", "unknown_site")
    else ("unknown_url", "unknown_site")
  | none => ("unknown_url", "unknown_site")

/-- C10: `get_current_browser_info` is total (the Lean model is a total
function; the Python body catches the URL-read exception and falls through to
the sentinel). With no page, a closed page, or a failing URL read it returns
exactly `("unknown_url", "unknown_site")`; when the parsed URL has an empty
host the site name is `"local_or_unknown"`; and the site identity is never the
empty string. -/
theorem c10_browser_info_total_sentinels (b : BrowserModel) :
    ((b.page = none ∨
        (∃ p, b.page = some p ∧
          (p.is_closed = true ∨ ∃ e, p.urlRead = Except.error e))) →
      get_current_browser_info b = ("unknown_url", "unknown_site")) ∧
    (∀ p u, b.page = some p → p.is_closed = false → p.urlRead = Except.ok u →
      urlNetloc u = "" → (get_current_browser_info b).2 = "local_or_unknown") ∧
    (get_current_browser_info b).2 ≠ "" := by
  obtain ⟨page⟩ := b
  refine ⟨?_, ?_, ?_⟩
  · rintro (hnone | ⟨p, hp, hclosed | ⟨e, herr⟩⟩)
    · simp only at hnone
      subst hnone
      rfl
    · simp only at hp
      subst hp
      simp [get_current_browser_info, hclosed]
    · simp only at hp
      subst hp
      simp only [get_current_browser_info, herr]
      cases p.is_closed <;> rfl
  · intro p u hp hopen hurl hnet
    simp only at hp
    subst hp
    simp only [get_current_browser_info, hopen, hurl, Bool.not_false, if_true, hnet]
    rfl
  · rcases page with _ | ⟨closed, urlr⟩
    · decide
    · cases closed
      · rcases urlr with e | u
        · simp only [get_current_browser_info]
          decide
        · simp only [get_current_browser_info, Bool.not_false, if_true]
          split
          · decide
          · rename_i hne
            simpa using hne
      · simp only [get_current_browser_info, Bool.not_true, Bool.false_eq_true, if_false]
        decide

theorem c10_witness :
    get_current_browser_info ⟨none⟩ = ("unknown_url", "unknown_site") ∧
    (get_current_browser_info
      ⟨some ⟨false, Except.ok "file:///tmp/data.html"⟩⟩).2 = "local_or_unknown" ∧
    (get_current_browser_info
      ⟨some ⟨false, Except.ok "https://www.example.com/x"⟩⟩).2 ≠ "" :=
  ⟨(c10_browser_info_total_sentinels ⟨none⟩).1 (Or.inl rfl),
    (c10_browser_info_total_sentinels
        ⟨some ⟨false, Except.ok "file:///tmp/data.html"⟩⟩).2.1
      ⟨false, Except.ok "file:///tmp/data.html"⟩ "file:///tmp/data.html" rfl rfl rfl
      (by decide),
    (c10_browser_info_total_sentinels
        ⟨some ⟨false, Except.ok "https://www.example.com/x"⟩⟩).2.2⟩

/-! ## Top-level entry (`orchestration.py::run_agent`) -/

/-- The dict `run_agent` returns: success carries the `output` key, failure
the `error` key — there is no third shape. -/
inductive RunResult where
  | output (s : String)
  | error (s : String)
deriving Repr, DecidableEq

/-- The `finally` block: `if browser_manager.is_browser_open():
browser_manager.close_browser()` — returns the browser-open flag after
cleanup (`close_browser` itself catches all exceptions and never raises). -/
def runCleanup (browser_open : Bool) : Bool :=
  if browser_open then false else browser_open

/-- `orchestration.py::run_agent` as a function of the outcome of the `try`
body (`create_agent` + `app.invoke` + reading `response["Output"]`: either the
final `Output` string, or the message of whatever exception was raised) and
the browser-open flag at the moment the `finally` block runs. Returns the
result dict together with the browser state after cleanup. -/
def run_agent (invoke_outcome : Except String String) (browser_open : Bool) :
    RunResult × Bool :=
  match invoke_outcome with
  | .ok output_value => (.output output_value, runCleanup browser_open)
  | .error e => (.error ("Error during agent running: " ++ e), runCleanup browser_open)

/-- C1: for every outcome of the run body and every browser state, `run_agent`
returns a dict holding exactly one of the keys `output` (success, carrying the
final `Output`) or `error` (failure, carrying the exception text) — the Lean
model is total, mirroring the Python `try/except Exception` that lets no
exception propagate — and on every exit path the browser is closed afterwards
if it was open. -/
theorem c1_run_agent_contract (invoke_outcome : Except String String)
    (browser_open : Bool) :
    (∀ v, invoke_outcome = Except.ok v →
      (run_agent invoke_outcome browser_open).1 = RunResult.output v) ∧
    (∀ e, invoke_outcome = Except.error e →
      (run_agent invoke_outcome browser_open).1 =
        RunResult.error ("Error during agent running: " ++ e)) ∧
    (run_agent invoke_outcome browser_open).2 = false := by
  refine ⟨?_, ?_, ?_⟩
  · intro v hv
    subst hv
    rfl
  · intro e he
    subst he
    rfl
  · cases invoke_outcome <;> cases browser_open <;> rfl

theorem c1_witness :
    (run_agent (Except.ok "top 5 stories: ...") true).1 =
      RunResult.output "top 5 stories: ..." ∧
    (run_agent (Except.error "TAVILY_API_KEY not found") true).1 =
      RunResult.error ("Error during agent running: " ++ "TAVILY_API_KEY not found") ∧
    (run_agent (Except.ok "top 5 stories: ...") true).2 = false :=
  ⟨(c1_run_agent_contract (Except.ok "top 5 stories: ...") true).1 _ rfl,
    (c1_run_agent_contract (Except.error "TAVILY_API_KEY not found") true).2.1 _ rfl,
    (c1_run_agent_contract (Except.ok "top 5 stories: ...") true).2.2⟩

/-! ## Provider rotation (`llm/router.py::LLMRouter.get_main_llm_with_rotation`) -/

/-- One rotation candidate `(model_name, llm)`; the model handle is identified
by the API key it was constructed from. -/
structure LLMEntry where
  name : String
  key : String
deriving Repr, DecidableEq

/-- `for idx, key in enumerate(keys, start=1): rotation_list.append((f"{label}{idx}", llm))`. -/
def providerEntries (label : String) : Nat → List String → List LLMEntry
  | _, [] => []
  | idx, k :: rest => ⟨label ++ toString (idx + 1), k⟩ :: providerEntries label (idx + 1) rest

/-- The candidate list `get_main_llm_with_rotation` builds before rotating:
Gemini keys then Groq keys (each when no provider filter or the matching
filter is given), SambaNova keys only under `provider="sambanova"`, Ollama
only under `provider="ollama"` and when the availability probe succeeds.
`get_model` construction failures are caught and skipped in the source; a key
whose model fails to construct simply does not occur in the key list here. -/
def buildMainRotation (gemini groq sambanova : List String) (ollamaAvailable : Bool)
    (provider : Option String) : List LLMEntry :=
  (if provider = none ∨ provider = some "gemini" then providerEntries "gemini_llm" 0 gemini
    else [])
  ++ (if provider = none ∨ provider = some "groq" then providerEntries "groq_llm" 0 groq
    else [])
  ++ (if provider = some "sambanova" then providerEntries "sambanova" 0 sambanova
    else [])
  ++ (if provider = some "ollama" ∧ ollamaAvailable then [⟨"ollama_text", "ollama"⟩]
    else [])

/-- The rotation step: `if start_index > 0: rotation_list =
rotation_list[start_index:] + rotation_list[:start_index]`, with Python slice
semantics for out-of-range indices (`drop`/`take` clamp exactly the same
way). -/
def rotateKeys {α : Type} (l : List α) (start_index : Nat) : List α :=
  if start_index > 0 then l.drop start_index ++ l.take start_index else l

/-- `router.py::get_main_llm_with_rotation`: `ValueError` on an empty
candidate list, else the rotated list. -/
def get_main_llm_with_rotation (gemini groq sambanova : List String)
    (ollamaAvailable : Bool) (start_index : Nat) (provider : Option String) :
    Except String (List LLMEntry) :=
  let rotation_list := buildMainRotation gemini groq sambanova ollamaAvailable provider
  if rotation_list = [] then
    .error "No valid API keys found for main LLM rotation"
  else
    .ok (rotateKeys rotation_list start_index)

theorem rotateKeys_eq_rotate {α : Type} (l : List α) (k : Nat) (hk : k ≤ l.length) :
    rotateKeys l k = l.rotate k := by
  rw [rotateKeys]
  split
  · exact (List.rotate_eq_drop_append_take hk).symm
  · rename_i h
    have hz : k = 0 := by omega
    subst hz
    rw [List.rotate_zero]

/-- C4 (corrected): the claim is false for `start_index > len(built)` — the
slicing `l[k:] + l[:k]` returns the list unchanged there instead of rotating
by `k mod len`. Concretely, with two Gemini keys and `start_index = 3`, the
returned rotation's first element is `gemini_llm1` while
`built[(3 + 0) mod 2]` is `gemini_llm2`. -/
theorem c4_counterexample :
    get_main_llm_with_rotation ["k1", "k2"] [] [] false 3 none =
      Except.ok (rotateKeys (buildMainRotation ["k1", "k2"] [] [] false none) 3) ∧
    (rotateKeys (buildMainRotation ["k1", "k2"] [] [] false none) 3)[0]? ≠
      (buildMainRotation ["k1", "k2"] [] [] false none)[(3 + 0) %
        (buildMainRotation ["k1", "k2"] [] [] false none).length]? := by
  constructor
  · rfl
  · decide

/-- C4 (amended): for every non-empty built rotation list and every
`start_index ≤ len(built)`, `get_main_llm_with_rotation` returns the cyclic
rotation `rotated[i] = built[(start_index + i) mod len(built)]`; moreover
`rotate(list, 0) = list`, `rotate(list, k)[0] = list[k]` for `0 < k < len`,
and `rotate(rotate(list, a), b) = rotate(list, (a + b) mod len)` for
`a, b < len`. For `start_index > len(built)` the list is returned unchanged
instead. -/
theorem c4_rotation_algebra (gemini groq sambanova : List String)
    (ollamaAvailable : Bool) (provider : Option String) (start_index : Nat)
    (l : List LLMEntry)
    (hbuilt : buildMainRotation gemini groq sambanova ollamaAvailable provider = l)
    (hne : l ≠ []) (hle : start_index ≤ l.length) :
    get_main_llm_with_rotation gemini groq sambanova ollamaAvailable start_index provider =
      Except.ok (rotateKeys l start_index) ∧
    (∀ i, i < l.length →
      (rotateKeys l start_index)[i]? = l[(start_index + i) % l.length]?) ∧
    rotateKeys l 0 = l ∧
    (∀ k, 0 < k → k < l.length → (rotateKeys l k)[0]? = l[k]?) ∧
    (∀ a b, a < l.length → b < l.length →
      rotateKeys (rotateKeys l a) b = rotateKeys l ((a + b) % l.length)) := by
  have hlen0 : 0 < l.length := by
    cases l with
    | nil => exact absurd rfl hne
    | cons x xs => simp
  have hpoint : ∀ k, k ≤ l.length → ∀ i, i < l.length →
      (rotateKeys l k)[i]? = l[(k + i) % l.length]? := by
    intro k hk i hi
    rw [rotateKeys_eq_rotate l k hk]
    have := List.get?_rotate (n := k) hi
    rw [List.get?_eq_getElem?, List.get?_eq_getElem?] at this
    rw [this, Nat.add_comm i k]
  refine ⟨?_, hpoint start_index hle, ?_, ?_, ?_⟩
  · simp only [get_main_llm_with_rotation, hbuilt]
    rw [if_neg hne]
  · simp [rotateKeys]
  · intro k hk0 hklen
    have := hpoint k (le_of_lt hklen) 0 hlen0
    rw [this, Nat.add_zero, Nat.mod_eq_of_lt hklen]
  · intro a b ha hb
    rw [rotateKeys_eq_rotate l a (le_of_lt ha)]
    have hlr : (l.rotate a).length = l.length := List.length_rotate l a
    rw [rotateKeys_eq_rotate (l.rotate a) b (by omega)]
    rw [List.rotate_rotate]
    rw [← List.rotate_mod]
    rw [← rotateKeys_eq_rotate l ((a + b) % l.length) (le_of_lt (Nat.mod_lt _ hlen0))]

theorem c4_witness :
    get_main_llm_with_rotation ["k1", "k2", "k3"] [] [] false 1 none =
      Except.ok (rotateKeys (buildMainRotation ["k1", "k2", "k3"] [] [] false none) 1) ∧
    (rotateKeys (buildMainRotation ["k1", "k2", "k3"] [] [] false none) 1)[0]? =
      (buildMainRotation ["k1", "k2", "k3"] [] [] false none)[(1 + 0) % 3]? := by
  have h := c4_rotation_algebra ["k1", "k2", "k3"] [] [] false none 1
    (buildMainRotation ["k1", "k2", "k3"] [] [] false none) rfl
    (by decide) (by decide)
  refine ⟨h.1, ?_⟩
  have h2 := h.2.1 0 (by decide)
  exact h2.trans (by decide)

/-! ## Memory worker (`orchestration.py::rag`) -/

/-- A document written to the vector store by the rag worker
(`page_content` plus the `url/site_name/task/agent` metadata). -/
structure RagDoc where
  page_content : String
  url : String
  site_name : String
  task : String
  agent : String
deriving Repr, DecidableEq

/-- Outcome of the rag node: a `Command(goto="redirector")` carrying its
message update (and the stored document, when the store was available), or an
exception that propagates out of the node. -/
inductive RagResult where
  | command (messages : List String) (goto : Goto) (stored : Option RagDoc)
  | raised (e : String)
deriving Repr, DecidableEq

/-- `orchestration.py::rag`. `db_available` models the result of
`get_vector_db()` (`False` = chromadb missing or the store constructor raised;
that exception is caught inside `get_vector_db`, which returns `None`).
`add_outcome` models the `vector_db.add_documents([doc])` call, which in the
source is not wrapped in any try/except. The browser URL/site are resolved at
call time through `get_current_browser_info`. -/
def rag (rag_messages : List String) (plan : List Step) (step_index : Nat)
    (b : BrowserModel) (db_available : Bool) (add_outcome : Except String Unit) :
    RagResult :=
  match rag_messages.getLast? with
  | none => .raised "IndexError: list index out of range"
  | some rag_content =>
    let us := get_current_browser_info b
    let ta : String × String :=
      match plan[step_index]? with
      | some st => (st.query, st.agent)
      | none => ("Unknown", "Unknown")
    let doc : RagDoc := ⟨rag_content, us.1, us.2, ta.1, ta.2⟩
    let saved_msg := "Memory Saved: \x27" ++ rag_content.take 50 ++ "...\x27"
    if db_available then
      match add_outcome with
      | .ok _ => .command [saved_msg] .redirector (some doc)
      | .error e => .raised e
    else
      .command [saved_msg] .redirector none

/-- C9 (corrected): the claim is false — `rag` calls
`vector_db.add_documents([doc])` with no surrounding try/except, so a raising
add operation propagates out of the worker instead of being logged and
swallowed. Concretely, with an available store whose add raises
`"chromadb write failed"`, the node raises rather than returning a routing
command. -/
theorem c9_counterexample :
    rag ["clicked wrong selector"] [] 0 ⟨none⟩ true
        (Except.error "chromadb write failed") =
      RagResult.raised "chromadb write failed" := by
  rfl

/-- C9 (amended): the store step is best-effort only against store
*construction* failures — when `get_vector_db()` returns `None` (chromadb
missing or the constructor raised, both caught inside `get_vector_db`), the
add is skipped and the worker still routes back to the Redirector; likewise
when the add succeeds. But an exception raised by the add call itself
propagates out of the rag worker (it is caught only by the top-level
`run_agent` handler). -/
theorem c9_rag_best_effort
    (msgs : List String) (plan : List Step) (step_index : Nat) (b : BrowserModel)
    (db_available : Bool) (add_outcome : Except String Unit)
    (hmsg : msgs ≠ [])
    (hok : db_available = false ∨ add_outcome = Except.ok ()) :
    ∃ m stored, msgs.getLast? = some m ∧
      rag msgs plan step_index b db_available add_outcome =
        RagResult.command ["Memory Saved: \x27" ++ m.take 50 ++ "...\x27"]
          Goto.redirector stored := by
  have hsome : msgs.getLast?.isSome = true := by
    rw [List.getLast?_isSome]
    exact hmsg
  obtain ⟨m, hm⟩ := Option.isSome_iff_exists.1 hsome
  refine ⟨m, ?_, hm, ?_⟩
  · exact if db_available then
      some ⟨m, (get_current_browser_info b).1, (get_current_browser_info b).2,
        (match plan[step_index]? with
          | some st => (st.query, st.agent)
          | none => ("Unknown", "Unknown")).1,
        (match plan[step_index]? with
          | some st => (st.query, st.agent)
          | none => ("Unknown", "Unknown")).2⟩
    else none
  · simp only [rag]
    rw [hm]
    rcases hok with hdb | hadd
    · subst hdb
      rfl
    · subst hadd
      cases db_available <;> rfl

theorem c9_witness :
    (∃ m stored, (["navigated to checkout"] : List String).getLast? = some m ∧
      rag ["navigated to checkout"] [] 0 ⟨none⟩ false (Except.ok ()) =
        RagResult.command ["Memory Saved: \x27" ++ m.take 50 ++ "...\x27"]
          Goto.redirector stored) :=
  c9_rag_best_effort ["navigated to checkout"] [] 0 ⟨none⟩ false (Except.ok ())
    (by decide) (Or.inl rfl)

theorem c8_witness :
    (redirector [⟨1, "UNKNOWN_TAG", "do the thing", none, none⟩] 0 []).goto = Goto.planner ∧
    (redirector [⟨1, "UNKNOWN_TAG", "do the thing", none, none⟩] 0 []).update.step_index = none ∧
    (redirector [⟨1, "UNKNOWN_TAG", "do the thing", none, none⟩] 0 []).update.plan = none ∧
    (redirector [⟨1, "UNKNOWN_TAG", "do the thing", none, none⟩] 0 []).update.messages =
      [unknownAgentMessage 0 "UNKNOWN_TAG"] ∧
    strContains (unknownAgentMessage 0 "UNKNOWN_TAG") (toString 0) = true ∧
    strContains (unknownAgentMessage 0 "UNKNOWN_TAG") "UNKNOWN_TAG" = true :=
  c8_unknown_tag_diagnostic [⟨1, "UNKNOWN_TAG", "do the thing", none, none⟩] 0 []
    ⟨1, "UNKNOWN_TAG", "do the thing", none, none⟩ (by decide) (by decide)

end BrowserAgent
